import Mathlib

/-!
Verification of the source-code mutation scripts of this repository
(scripts/add-logging.py, scripts/update-mains.py, scripts/update-tests.py,
scripts/fix-healthchecks.py).

File content is modelled as a list of characters.  The Python string and
regular-expression operations the scripts use are embedded as executable
functions: str.replace is a left-to-right non-overlapping replace-all;
re.search is a leftmost-first scan; re.sub and re.finditer are single
left-to-right rewriting passes resuming after each match.  Every pattern the
scripts use is deterministic at a given start position (each bounded
character class stops at the first excluded delimiter), so each pattern is
embedded as a direct matcher on the suffix starting at the scan position.
-/

/-- Characters of a string literal, the representation of file content used throughout. -/
def strL (s : String) : List Char := s.data

/-- Boolean test that the first list is a prefix of the second. -/
def prefixB : List Char → List Char → Bool
  | [], _ => true
  | _ :: _, [] => false
  | a :: as, b :: bs => (a == b) && prefixB as bs

/-- Boolean substring test, modelling the Python expression needle in s. -/
def containsSub (needle : List Char) : List Char → Bool
  | [] => prefixB needle []
  | c :: rest => prefixB needle (c :: rest) || containsSub needle rest

/-- Suffix test, modelling the Python str.endswith. -/
def endsWithB (s sfx : List Char) : Bool := prefixB sfx.reverse s.reverse

/-- Whitespace class of the patterns and of str.rstrip, on the ASCII range used here. -/
def isPyWs (c : Char) : Bool :=
  c == '\x20' || c == '\t' || c == '\n' || c == '\r' || c == '\x0b' || c == '\x0c'

/-- Remove trailing whitespace, modelling the Python str.rstrip. -/
def rstripL (s : List Char) : List Char := (s.reverse.dropWhile isPyWs).reverse

/-- Lower-casing of one character, modelling str.lower on the ASCII inputs used here. -/
def lowerC (c : Char) : Char :=
  if 65 ≤ c.toNat ∧ c.toNat ≤ 90 then Char.ofNat (c.toNat + 32) else c

/-- Lower-casing of content, modelling str.lower. -/
def lowerL (s : List Char) : List Char := s.map lowerC

/-- One left-to-right rewriting pass: at each position either the matcher fires, emitting
a replacement chunk and resuming after the consumed span, or one character is copied.
The fuel argument only forces termination; length s + 1 fuel always suffices because
every matcher used here consumes at least one character when it fires. -/
def scanGo (tm : List Char → Option (List Char × List Char)) : Nat → List Char → List Char
  | 0, s => s
  | _ + 1, [] => []
  | fuel + 1, c :: rest =>
    match tm (c :: rest) with
    | some (emit, rem) => emit ++ scanGo tm fuel rem
    | none => c :: scanGo tm fuel rest

/-- First-match search: try the matcher at each position from the left, modelling
the scan of re.search. -/
def findGo {α : Type} (tm : List Char → Option α) : List Char → Option α
  | [] => tm []
  | c :: rest =>
    match tm (c :: rest) with
    | some a => some a
    | none => findGo tm rest

/-- Matcher of a literal needle: emit the replacement and consume the needle. -/
def replTry (needle repl : List Char) (s : List Char) : Option (List Char × List Char) :=
  if prefixB needle s then some (repl, s.drop needle.length) else none

/-- Replace every occurrence, left to right and non-overlapping, modelling Python
str.replace (all needles used are nonempty). -/
def replaceAll (needle repl s : List Char) : List Char :=
  scanGo (replTry needle repl) (s.length + 1) s

/-- The ten handler type names of the catalog in add-logging.py. -/
def handlerNames : List String :=
  ["IdentityHandler", "FXHandler", "LedgerHandler", "AccountHandler",
   "PaymentHandler", "DepositHandler", "CardHandler", "LendingHandler",
   "FraudHandler", "ReportingHandler"]

/-- The handler catalog as character lists. -/
def handlersL : List (List Char) := handlerNames.map strL

/-- Anchor of the import-injection rule of add-logging.py. -/
def importAnchor : List Char := strL "import (\n\t\"context\""

/-- Replacement of the import-injection rule. -/
def importIns : List Char := strL "import (\n\t\"context\"\n\t\"log/slog\""

/-- The guard literal of the import-injection rule. -/
def slashSlog : List Char := strL "log/slog"

/-- Step 1 of update_handler_file: add the slog import if missing. -/
def step1Import (c : List Char) : List Char :=
  if containsSub slashSlog c then c else replaceAll importAnchor importIns c

/-- Literal head of the TODO-comment placeholder pattern. -/
def todoLit : List Char := strL "// TODO: log original error server-side: err"

/-- Literal tail of the TODO-comment placeholder pattern. -/
def returnLit : List Char := strL "return nil, status.Error(codes.Internal, \"internal error\")"

/-- Replacement text of the placeholder-substitution rule. -/
def todoRepl : List Char :=
  strL "h.logger.Error(\"handler error\", \"error\", err)\n\t\treturn nil, status.Error(codes.Internal, \"internal error\")"

/-- Matcher of the placeholder pattern: the TODO literal, whitespace containing a
newline, then the return literal (the whitespace run is maximal because the return
literal starts with a non-whitespace character). -/
def tryTodo (s : List Char) : Option (List Char × List Char) :=
  if prefixB todoLit s then
    let after := s.drop todoLit.length
    let ws := after.takeWhile isPyWs
    if ws.any (fun c => c == '\n') ∧ prefixB returnLit (after.drop ws.length) = true then
      some (todoRepl, (after.drop ws.length).drop returnLit.length)
    else none
  else none

/-- Step 2 of update_handler_file: replace all TODO error comments. -/
def subTodo (s : List Char) : List Char := scanGo tryTodo (s.length + 1) s

/-- Literal head of the struct-body pattern for one handler name. -/
def structLitOf (h : List Char) : List Char := strL "type " ++ h ++ strL " struct \x7b"

/-- Matcher of a brace-delimited span: the literal head, then one or more characters up
to the first closing brace.  Returns group 1 of a match anchored at this position. -/
def tryStruct (lit : List Char) (s : List Char) : Option (List Char) :=
  if prefixB lit s then
    let after := s.drop lit.length
    let body := after.takeWhile (fun c => c != '\x7d')
    if 0 < body.length ∧ body.length < after.length then some (lit ++ body) else none
  else none

/-- The struct field appended by the field-injection rule. -/
def fieldIns : List Char := strL "\n\tlogger               *slog.Logger"

/-- The guard literal logger. -/
def loggerLit : List Char := strL "logger"

/-- Step 3 of update_handler_file for one handler name: add the logger struct field. -/
def step3Struct (c : List Char) (h : List Char) : List Char :=
  match findGo (tryStruct (structLitOf h)) c with
  | none => c
  | some fields =>
    if containsSub loggerLit fields then c
    else if containsSub (strL "\tlogger") fields || containsSub (strL "logger *") fields then c
    else replaceAll fields (fields ++ fieldIns) c

/-- Literal head of the constructor parameter-list pattern for one handler name. -/
def funcLitOf (h : List Char) : List Char := strL "func New" ++ h ++ strL "("

/-- Matcher of the constructor parameter list: the function head, then one or more
characters up to the first closing parenthesis, which must be followed by the
return-type marker.  Returns group 1 of a match anchored at this position. -/
def tryParams (h : List Char) (s : List Char) : Option (List Char) :=
  if prefixB (funcLitOf h) s then
    let after := s.drop (funcLitOf h).length
    let body := after.takeWhile (fun c => c != ')')
    if 0 < body.length ∧ body.length < after.length ∧
        prefixB (strL ") *" ++ h) (after.drop body.length) = true then
      some (funcLitOf h ++ body)
    else none
  else none

/-- New parameter list of update_handler_file, following its three formatting cases. -/
def handlerNewParams (p : List Char) : List Char :=
  if endsWithB p (strL ",\n") then p ++ strL "\tlogger *slog.Logger,\n"
  else if endsWithB p (strL ")") then replaceAll (strL ")") (strL ",\n\tlogger *slog.Logger,)") p
  else p ++ strL ",\n\tlogger *slog.Logger"

/-- Literal head of the struct-literal construction pattern for one handler name. -/
def initLitOf (h : List Char) : List Char := strL "return &" ++ h ++ strL "\x7b"

/-- The field assignment appended to the struct-literal construction. -/
def initIns : List Char := strL "\n\t\tlogger:               logger,"

/-- Step 4 of update_handler_file for one handler name: add the logger parameter to the
constructor and the logger field assignment to the returned struct literal. -/
def step4Params (c : List Char) (h : List Char) : List Char :=
  match findGo (tryParams h) c with
  | none => c
  | some params =>
    if containsSub loggerLit params then c
    else
      let c1 := replaceAll params (handlerNewParams params) c
      match findGo (tryStruct (initLitOf h)) c1 with
      | none => c1
      | some initFields =>
        if containsSub (strL "logger:") initFields || containsSub (strL "logger *") initFields
        then c1
        else replaceAll initFields (initFields ++ initIns) c1

/-- In-memory content transform of update_handler_file (add-logging.py): import
injection, placeholder substitution, field injection over the catalog, then
constructor-parameter and field-assignment injection over the catalog. -/
def update_handler_content (c : List Char) : List Char :=
  handlersL.foldl step4Params (handlersL.foldl step3Struct (subTodo (step1Import c)))

/-- The ten constructor names of the catalog in update-mains.py and update-tests.py. -/
def newHandlerNames : List String :=
  ["NewIdentityHandler", "NewFXHandler", "NewLedgerHandler", "NewAccountHandler",
   "NewPaymentHandler", "NewDepositHandler", "NewCardHandler", "NewLendingHandler",
   "NewFraudHandler", "NewReportingHandler"]

/-- The constructor catalog as character lists. -/
def newHandlersL : List (List Char) := newHandlerNames.map strL

/-- Matcher of the call pattern: the call name, an opening parenthesis, then one or more
characters up to the first closing parenthesis.  Returns group 1 and the remainder after
the closing parenthesis (group 2). -/
def tryCall (n : List Char) (s : List Char) : Option (List Char × List Char) :=
  if prefixB (n ++ strL "(") s then
    let after := s.drop (n ++ strL "(").length
    let body := after.takeWhile (fun c => c != ')')
    if 0 < body.length ∧ body.length < after.length then
      some (n ++ strL "(" ++ body, after.drop (body.length + 1))
    else none
  else none

/-- New argument list of update-mains.py and update-tests.py, following their
trailing-comma cases. -/
def mainsNewArgs (args : List Char) : List Char :=
  if endsWithB (rstripL args) (strL ",") then args ++ strL "\n\t\tlogger,"
  else args ++ strL ",\n\t\tlogger,"

/-- update_main_file rule for one constructor: first match only, guarded by a
case-insensitive logger test, substituted over the whole content by str.replace. -/
def stepMain (c : List Char) (n : List Char) : List Char :=
  match findGo (fun s => (tryCall n s).map Prod.fst) c with
  | none => c
  | some args =>
    if containsSub loggerLit (lowerL args) then c
    else replaceAll args (mainsNewArgs args) c

/-- In-memory content transform of update_main_file (update-mains.py). -/
def update_main_content (c : List Char) : List Char :=
  newHandlersL.foldl stepMain c

/-- update-tests.py matcher for one constructor: an unchanged match (its lower-cased
group 1 mentions logger or log) is copied verbatim; an updated match is spliced over the
entire match including the closing parenthesis of group 2. -/
def tryTest (n : List Char) (s : List Char) : Option (List Char × List Char) :=
  match tryCall n s with
  | none => none
  | some (args, rem) =>
    if containsSub loggerLit (lowerL args) || containsSub (strL "log") (lowerL args) then
      some (args ++ strL ")", rem)
    else
      some (mainsNewArgs args, rem)

/-- update-tests.py rewriting pass for one constructor, over every match of the call
pattern. -/
def stepTest (c : List Char) (n : List Char) : List Char := scanGo (tryTest n) (c.length + 1) c

/-- Import injection of update-tests.py, anchored on the testing import. -/
def testImport (c : List Char) : List Char :=
  if containsSub slashSlog c then c
  else if containsSub (strL "\"testing\"") c then
    replaceAll (strL "\"testing\"") (strL "\"log/slog\"\n\t\"testing\"") c
  else c

/-- In-memory content transform of the update-tests.py module body for one file. -/
def update_test_content (c : List Char) : List Char :=
  newHandlersL.foldl stepTest (testImport c)

/-- Per-file outcome of an updater: final content, the write-back performed (if any),
and the reported changed verdict. -/
structure RunResult where
  content : List Char
  written : Option (List Char)
  changed : Bool

/-- File-level behaviour shared by the three updaters: write back the complete new
content and report changed exactly when the transform changed the content. -/
def runFile (f : List Char → List Char) (c : List Char) : RunResult :=
  let n := f c
  if n = c then ⟨n, none, false⟩ else ⟨n, some n, true⟩

/-- File behaviour of update_handler_file (add-logging.py). -/
def update_handler_file (c : List Char) : RunResult := runFile update_handler_content c

/-- File behaviour of update_main_file (update-mains.py). -/
def update_main_file (c : List Char) : RunResult := runFile update_main_content c

/-- File behaviour of the update-tests.py per-file body. -/
def update_test_file (c : List Char) : RunResult := runFile update_test_content c

/-- Literal head of the healthcheck anchor pattern of fix-healthchecks.py. -/
def hcLit : List Char := strL "test: [\"CMD\", \"wget\""

/-- Suffix required before the closing bracket of the healthcheck test line. -/
def hcHealthz : List Char := strL "healthz\""

/-- The interval literal of the healthcheck anchor pattern. -/
def hcInterval : List Char := strL "interval: 10s"

/-- The lookahead literal of fix-healthchecks.py. -/
def startPeriod : List Char := strL "start_period"

/-- The key-value line inserted by fix-healthchecks.py. -/
def hcIns : List Char := strL "\n      start_period: 30s"

/-- Matcher of the healthcheck anchor block: the test-line head, a bracket-free segment
ending in the healthz literal, the closing bracket, a newline, one or more whitespace
characters, the interval literal, then the negative lookahead over the whole remaining
document (the DOTALL dot-star). -/
def tryHealth (s : List Char) : Option (List Char × List Char) :=
  if prefixB hcLit s then
    let after := s.drop hcLit.length
    let seg := after.takeWhile (fun c => c != ']')
    if seg.length < after.length ∧ endsWithB seg hcHealthz = true then
      let after1 := after.drop (seg.length + 1)
      if prefixB (strL "\n") after1 then
        let after2 := after1.drop 1
        let ws := after2.takeWhile isPyWs
        if 0 < ws.length ∧ prefixB hcInterval (after2.drop ws.length) = true then
          let rest := (after2.drop ws.length).drop hcInterval.length
          if containsSub startPeriod rest then none
          else some (hcLit ++ seg ++ strL "]\n" ++ ws ++ hcInterval ++ hcIns, rest)
        else none
      else none
    else none
  else none

/-- The single substitution pass of fix-healthchecks.py over the configuration document. -/
def fix_health_content (s : List Char) : List Char := scanGo tryHealth (s.length + 1) s

/-- File behaviour of fix-healthchecks.py: the substituted content and the write-back,
which is unconditional. -/
def fix_health_file (c : List Char) : List Char × Option (List Char) :=
  (fix_health_content c, some (fix_health_content c))

/-- Content with none of the add-logging rule identifiers: the import anchor, the TODO
placeholder head, and the struct and constructor heads of every catalog handler. -/
def handlerTargetFree (c : List Char) : Bool :=
  !containsSub importAnchor c && !containsSub todoLit c &&
    handlersL.all (fun h => !containsSub (structLitOf h) c && !containsSub (funcLitOf h) c)

/-- Input on which the transform of update_handler_file is not idempotent: the first run
updates the FX struct span and then the Ledger rule's global substitution splits the
already-updated FX struct head, so a fresh bare FX span becomes the first match of the
second run. -/
def c1ex : List Char :=
  strL "type LedgerHandler struct \x7bQQQtype FXH\x7dtype LedgerHandler struct \x7bQQQtype FXHandler struct \x7ba\x7dtype FXHandler struct \x7bb\x7d"

/-- A file content the transform of update_handler_file leaves unchanged. -/
def c1w : List Char := strL "x"

/-- A constructor whose parameter span ends with a bare comma (no newline). -/
def c3ex : List Char := strL "func NewFXHandler(a,) *FXHandler"

/-- The Scenario C constructor file, instantiated with the catalog name FXHandler. -/
def c4in : List Char :=
  strL "func NewFXHandler(x int) *FXHandler \x7b return &FXHandler\x7bx: x\x7d \x7d"

/-- Expected result of update_handler_file on the Scenario C constructor file. -/
def c4out : List Char :=
  strL "func NewFXHandler(x int,\n\tlogger *slog.Logger) *FXHandler \x7b return &FXHandler\x7bx: x\n\t\tlogger:               logger,\x7d \x7d"

/-- The Scenario D call site with no mention of logger. -/
def c5in : List Char := strL "NewFXHandler(1)"

/-- The Scenario D call site already containing a logger argument. -/
def c5logIn : List Char := strL "NewFXHandler(1, logger)"

/-- A file with two identical struct spans for one catalog handler. -/
def c6ex : List Char := strL "type CardHandler struct \x7bx\x7dtype CardHandler struct \x7bx\x7d"

/-- A second file with two identical struct spans for one catalog handler. -/
def c6amx : List Char := strL "type LendingHandler struct \x7by\x7dtype LendingHandler struct \x7by\x7d"

/-- A file containing none of the add-logging rule identifiers. -/
def c7w : List Char := strL "package main\n"

/-- A healthcheck anchor block of the fix-healthchecks.py pattern, without the key. -/
def hcBlock : List Char :=
  strL "test: [\"CMD\", \"wget\", \"http://x/healthz\"]\n      interval: 10s"

/-- A document with a bare healthcheck block followed by a block already keyed with
start_period. -/
def c8ex : List Char := hcBlock ++ strL "\n" ++ hcBlock ++ hcIns

/-- A document with two bare healthcheck blocks. -/
def c8am1 : List Char := hcBlock ++ strL "\n" ++ hcBlock

/-- A document with one bare block and a later stray start_period occurrence outside any
block. -/
def c8am2 : List Char := hcBlock ++ strL "\nx start_period y"

/-- A configuration document without any healthcheck anchor block. -/
def c9w : List Char := strL "services:\n"

/-- A main file with two textually identical calls of one catalog constructor. -/
def c10ex : List Char := strL "NewFraudHandler(1)\nNewFraudHandler(1)"

/-- A main file with two calls of one catalog constructor with different arguments. -/
def c10am1 : List Char := strL "NewReportingHandler(1)\nNewReportingHandler(2)"

/-- A second main file with two textually identical constructor calls. -/
def c10am2 : List Char := strL "NewPaymentHandler(1)\nNewPaymentHandler(1)"

theorem runFile_changed_iff (f : List Char → List Char) (c : List Char) :
    (runFile f c).changed = true ↔ f c ≠ c := by
  unfold runFile
  by_cases h : f c = c
  · simp [h]
  · simp [h]

theorem runFile_written_eq (f : List Char → List Char) (c : List Char) :
    (runFile f c).written = if f c = c then none else some (f c) := by
  unfold runFile
  by_cases h : f c = c
  · simp [h]
  · simp [h]

/-- C2: Conditional write-back: for every processed file of the three updater scripts,
a write-back happens exactly when the transformed content differs from the content read,
the written value is the complete transformed content, and the reported verdict is
changed exactly when the content differs. -/
theorem c2_write_iff_changed :
    ∀ c : List Char,
      ((update_handler_file c).written =
        if update_handler_content c = c then none else some (update_handler_content c)) ∧
      ((update_handler_file c).changed = true ↔ update_handler_content c ≠ c) ∧
      ((update_main_file c).written =
        if update_main_content c = c then none else some (update_main_content c)) ∧
      ((update_main_file c).changed = true ↔ update_main_content c ≠ c) ∧
      ((update_test_file c).written =
        if update_test_content c = c then none else some (update_test_content c)) ∧
      ((update_test_file c).changed = true ↔ update_test_content c ≠ c) := by
  intro c
  exact ⟨runFile_written_eq update_handler_content c, runFile_changed_iff update_handler_content c,
    runFile_written_eq update_main_content c, runFile_changed_iff update_main_content c,
    runFile_written_eq update_test_content c, runFile_changed_iff update_test_content c⟩

/-- C9: The fix-healthchecks.py pass writes the document back unconditionally: the write
is always performed, and in particular it is performed on a document the substitution
leaves byte-identical. -/
theorem c9_unconditional_write :
    (∀ c : List Char, (fix_health_file c).2 = some (fix_health_content c)) ∧
    fix_health_content c9w = c9w ∧
    (fix_health_file c9w).2 = some c9w := by
  refine ⟨fun c => rfl, by decide, by decide⟩

set_option maxRecDepth 400000 in
/-- C1 counterexample: applying the transform of update_handler_file twice changes the
content again, and the second run reports the file changed.  On the first run the FX
struct rule fires and then the Ledger struct rule's replace-all substitutes two
occurrences of its first-matched span text, splitting the already-updated FX struct
head, after which a bare FX struct span becomes the first match of the second run. -/
theorem c1_second_run_changes :
    update_handler_content (update_handler_content c1ex) ≠ update_handler_content c1ex ∧
    (update_handler_file (update_handler_content c1ex)).changed = true := by
  refine ⟨by decide, by decide⟩

/-- C1 amended: the transform of update_handler_file need not be idempotent, but a
second application is a no-op whenever the first application already left the content
unchanged: it then leaves the content unchanged, performs no write, and reports the
file unchanged. -/
theorem c1_amended_unchanged_stable :
    ∀ c : List Char, update_handler_content c = c →
      update_handler_content (update_handler_content c) = update_handler_content c ∧
      (update_handler_file (update_handler_content c)).changed = false ∧
      (update_handler_file (update_handler_content c)).written = none := by
  intro c h
  rw [h]
  refine ⟨h, ?_, ?_⟩
  · simp [update_handler_file, runFile, h]
  · simp [update_handler_file, runFile, h]

/-- Witness for the amended C1 statement at a concrete unchanged content. -/
theorem c1_amended_unchanged_stable_witness :
    update_handler_content (update_handler_content c1w) = update_handler_content c1w ∧
    (update_handler_file (update_handler_content c1w)).changed = false ∧
    (update_handler_file (update_handler_content c1w)).written = none :=
  c1_amended_unchanged_stable c1w (by decide)

theorem scanGo_id_of_not_contains (lit : List Char)
    (tm : List Char → Option (List Char × List Char))
    (htm : ∀ t, prefixB lit t = false → tm t = none) :
    ∀ (fuel : Nat) (s : List Char), containsSub lit s = false → scanGo tm fuel s = s := by
  intro fuel
  induction fuel with
  | zero => intro s _; rfl
  | succ n ih =>
    intro s hs
    cases s with
    | nil => rfl
    | cons c rest =>
      have hsplit : prefixB lit (c :: rest) = false ∧ containsSub lit rest = false := by
        simpa [containsSub] using hs
      simp [scanGo, htm _ hsplit.1, ih rest hsplit.2]

theorem findGo_none_of_not_contains {α : Type} (lit : List Char)
    (tm : List Char → Option α)
    (htm : ∀ t, prefixB lit t = false → tm t = none) :
    ∀ s : List Char, containsSub lit s = false → findGo tm s = none := by
  intro s
  induction s with
  | nil =>
    intro hs
    have h0 : prefixB lit [] = false := by simpa [containsSub] using hs
    simp [findGo, htm _ h0]
  | cons c rest ih =>
    intro hs
    have hsplit : prefixB lit (c :: rest) = false ∧ containsSub lit rest = false := by
      simpa [containsSub] using hs
    simp [findGo, htm _ hsplit.1, ih hsplit.2]

theorem replaceAll_of_not_contains (needle repl s : List Char)
    (h : containsSub needle s = false) : replaceAll needle repl s = s :=
  scanGo_id_of_not_contains needle (replTry needle repl)
    (fun t ht => by simp [replTry, ht]) (s.length + 1) s h

theorem step1Import_id (c : List Char) (hc : containsSub importAnchor c = false) :
    step1Import c = c := by
  unfold step1Import
  by_cases h : containsSub slashSlog c = true
  · simp [h]
  · simp [h, replaceAll_of_not_contains _ _ _ hc]

theorem subTodo_id (c : List Char) (hc : containsSub todoLit c = false) : subTodo c = c :=
  scanGo_id_of_not_contains todoLit tryTodo (fun t ht => by simp [tryTodo, ht]) _ c hc

theorem step3Struct_id (c h : List Char) (hc : containsSub (structLitOf h) c = false) :
    step3Struct c h = c := by
  have hn := findGo_none_of_not_contains (structLitOf h) (tryStruct (structLitOf h))
    (fun t ht => by simp [tryStruct, ht]) c hc
  simp [step3Struct, hn]

theorem step4Params_id (c h : List Char) (hc : containsSub (funcLitOf h) c = false) :
    step4Params c h = c := by
  have hn := findGo_none_of_not_contains (funcLitOf h) (tryParams h)
    (fun t ht => by simp [tryParams, ht]) c hc
  simp [step4Params, hn]

theorem foldl_fix (f : List Char → List Char → List Char) :
    ∀ (l : List (List Char)) (c : List Char), (∀ x ∈ l, f c x = c) → l.foldl f c = c := by
  intro l
  induction l with
  | nil => intro c _; rfl
  | cons x xs ih =>
    intro c h
    rw [List.foldl_cons, h x (List.mem_cons_self x xs)]
    exact ih c fun y hy => h y (List.mem_cons_of_mem x hy)

/-- C7: No-op on non-matching files: a file whose content contains none of the rule
identifiers of add-logging.py (import anchor, placeholder head, struct heads and
constructor heads of the catalog) is left byte-for-byte identical, no write occurs for
it, and it is reported unchanged. -/
theorem c7_noop_on_target_free :
    ∀ c : List Char, handlerTargetFree c = true →
      update_handler_content c = c ∧
      (update_handler_file c).changed = false ∧
      (update_handler_file c).written = none := by
  intro c hc
  simp only [handlerTargetFree, Bool.and_eq_true, Bool.not_eq_true', List.all_eq_true] at hc
  obtain ⟨⟨h1, h2⟩, h3⟩ := hc
  have hcontent : update_handler_content c = c := by
    unfold update_handler_content
    rw [step1Import_id c h1, subTodo_id c h2]
    rw [foldl_fix step3Struct handlersL c fun x hx =>
      step3Struct_id c x (h3 x hx).1]
    exact foldl_fix step4Params handlersL c fun x hx =>
      step4Params_id c x (h3 x hx).2
  refine ⟨hcontent, ?_, ?_⟩
  · simp [update_handler_file, runFile, hcontent]
  · simp [update_handler_file, runFile, hcontent]

/-- Witness for the C7 no-op statement at a concrete non-matching content. -/
theorem c7_noop_on_target_free_witness :
    handlerTargetFree c7w = true ∧ update_handler_content c7w = c7w ∧
    (update_handler_file c7w).changed = false ∧ (update_handler_file c7w).written = none :=
  ⟨by decide, (c7_noop_on_target_free c7w (by decide)).1,
    (c7_noop_on_target_free c7w (by decide)).2.1,
    (c7_noop_on_target_free c7w (by decide)).2.2⟩

theorem prefixB_singleton (a : Char) (l : List Char) :
    prefixB [a] l = true ↔ l.head? = some a := by
  cases l with
  | nil => simp [prefixB]
  | cons c rest =>
    show ((a == c) && prefixB [] rest) = true ↔ (c :: rest).head? = some a
    rw [show prefixB [] rest = true from rfl, Bool.and_true, beq_iff_eq, List.head?_cons]
    constructor
    · intro h
      rw [h]
    · intro h
      exact (Option.some.inj h).symm

theorem containsSub_cons (n : List Char) (c : Char) (rest : List Char) :
    containsSub n (c :: rest) = (prefixB n (c :: rest) || containsSub n rest) := rfl

theorem prefixB_pair (x y c : Char) (t : List Char) :
    prefixB [x, y] (c :: t) = ((x == c) && prefixB [y] t) := by
  show ((x == c) && prefixB [y] t) = _
  rfl

theorem contains2_split (x y : Char) :
    ∀ a b : List Char, containsSub [x, y] (a ++ b) = true →
      containsSub [x, y] a = true ∨ containsSub [x, y] b = true ∨
        (a.getLast? = some x ∧ b.head? = some y) := by
  intro a
  induction a with
  | nil => intro b h; exact Or.inr (Or.inl h)
  | cons c a' ih =>
    intro b h
    rw [List.cons_append, containsSub_cons, Bool.or_eq_true] at h
    rcases h with hp | hco
    · rw [prefixB_pair, Bool.and_eq_true, beq_iff_eq] at hp
      cases a' with
      | nil =>
        refine Or.inr (Or.inr ⟨?_, ?_⟩)
        · rw [List.getLast?_singleton, hp.1]
        · exact (prefixB_singleton y b).mp hp.2
      | cons d a'' =>
        left
        have hd : d = y := Option.some.inj ((prefixB_singleton y (d :: (a'' ++ b))).mp hp.2)
        have h1 : (x == c) = true := by rw [hp.1]; exact beq_self_eq_true c
        have h2 : prefixB [y] (d :: a'') = true := by
          rw [prefixB_singleton, List.head?_cons, hd]
        rw [containsSub_cons, prefixB_pair, h1, h2]
        simp
    · rcases ih b hco with h1 | h2 | ⟨hl, hh⟩
      · left
        rw [containsSub_cons, h1, Bool.or_true]
      · exact Or.inr (Or.inl h2)
      · refine Or.inr (Or.inr ⟨?_, hh⟩)
        cases a' with
        | nil => simp at hl
        | cons d a'' => rw [List.getLast?_cons_cons]; exact hl

theorem contains2_junction (x y : Char) :
    ∀ a b : List Char, a.getLast? = some x → b.head? = some y →
      containsSub [x, y] (a ++ b) = true := by
  intro a
  induction a with
  | nil => intro b h _; simp at h
  | cons c a' ih =>
    intro b hl hh
    cases a' with
    | nil =>
      have hc0 : c = x := by simpa using hl
      have hc : x = c := hc0.symm
      cases b with
      | nil => simp at hh
      | cons d b' =>
        have hd : d = y := by simpa using hh
        show containsSub [x, y] (c :: d :: b') = true
        have h1 : (x == c) = true := by rw [hc]; exact beq_self_eq_true c
        have h2 : prefixB [y] (d :: b') = true := by
          rw [prefixB_singleton, List.head?_cons, hd]
        rw [containsSub_cons, prefixB_pair, h1, h2]
        simp
    | cons d a'' =>
      have hrec : containsSub [x, y] ((d :: a'') ++ b) = true :=
        ih b (by rw [List.getLast?_cons_cons] at hl; exact hl) hh
      show containsSub [x, y] (c :: ((d :: a'') ++ b)) = true
      rw [containsSub_cons, hrec, Bool.or_true]

theorem endsWithB_singleton (a : Char) (s : List Char) :
    endsWithB s [a] = true ↔ s.getLast? = some a := by
  unfold endsWithB
  rw [show ([a] : List Char).reverse = [a] from rfl, prefixB_singleton, List.head?_reverse]

theorem rstripL_last_comma (s : List Char) (h : s.getLast? = some ',') :
    (rstripL s).getLast? = some ',' := by
  cases hs : s.reverse with
  | nil =>
    have h0 : s = [] := by simpa using congrArg List.reverse hs
    subst h0
    simp at h
  | cons c t =>
    have hc : c = ',' := by
      have h1 : s.reverse.head? = some ',' := by rw [List.head?_reverse]; exact h
      rw [hs] at h1
      simpa using h1
    subst hc
    unfold rstripL
    rw [hs]
    have hws : isPyWs ',' = false := by decide
    simp only [List.dropWhile_cons, hws, Bool.false_eq_true, if_false]
    rw [List.getLast?_reverse]
    rfl

theorem mainsNewArgs_no_double_comma (args : List Char)
    (h : containsSub (strL ",,") args = false) :
    containsSub (strL ",,") (mainsNewArgs args) = false := by
  have h2 : strL ",," = [',', ','] := rfl
  rw [h2] at h
  unfold mainsNewArgs
  by_cases hend : endsWithB (rstripL args) (strL ",") = true
  · rw [if_pos hend, h2]
    cases hx : containsSub [',', ','] (args ++ strL "\n\t\tlogger,") with
    | false => rfl
    | true =>
      exfalso
      rcases contains2_split ',' ',' args _ hx with h1 | h1 | ⟨hlast, hhead⟩
      · simp [h1] at h
      · have hb : containsSub [',', ','] (strL "\n\t\tlogger,") = false := by decide
        simp [hb] at h1
      · have hh : (strL "\n\t\tlogger,").head? = some '\n' := rfl
        rw [hh] at hhead
        simp at hhead
  · rw [if_neg hend, h2]
    cases hx : containsSub [',', ','] (args ++ strL ",\n\t\tlogger,") with
    | false => rfl
    | true =>
      exfalso
      rcases contains2_split ',' ',' args _ hx with h1 | h1 | ⟨hlast, hhead⟩
      · simp [h1] at h
      · have hb : containsSub [',', ','] (strL ",\n\t\tlogger,") = false := by decide
        simp [hb] at h1
      · have hr := rstripL_last_comma args hlast
        have hc : endsWithB (rstripL args) (strL ",") = true := by
          rw [show strL "," = [','] from rfl]
          exact (endsWithB_singleton ',' (rstripL args)).mpr hr
        exact hend hc

set_option maxRecDepth 400000 in
/-- C3 counterexample: a constructor parameter span that already ends with a trailing
comma separator (but not comma-newline) receives another comma from the parameter
rewrite of update_handler_file, producing a double separator. -/
theorem c3_double_separator_counterexample :
    update_handler_content c3ex =
      strL "func NewFXHandler(a,,\n\tlogger *slog.Logger) *FXHandler" ∧
    containsSub (strL ",,") (update_handler_content c3ex) = true := by
  refine ⟨by decide, by decide⟩

/-- C3 amended: the call-argument rewrite of update-mains.py and update-tests.py never
creates a double comma (after a trailing comma, ignoring trailing whitespace, no extra
separator is inserted; otherwise exactly one comma is); the constructor-parameter
rewrite of add-logging.py omits the extra separator only when the span ends in
comma-newline, and a span ending in a bare comma receives a second comma, producing a
double separator. -/
theorem c3_amended_separator :
    (∀ args : List Char, containsSub (strL ",,") args = false →
        containsSub (strL ",,") (mainsNewArgs args) = false) ∧
    (∀ p : List Char, endsWithB p (strL ",\n") = true →
        handlerNewParams p = p ++ strL "\tlogger *slog.Logger,\n") ∧
    (∀ p : List Char, p.getLast? = some ',' → endsWithB p (strL ",\n") = false →
        containsSub (strL ",,") (handlerNewParams p) = true) := by
  refine ⟨mainsNewArgs_no_double_comma, ?_, ?_⟩
  · intro p hp
    simp [handlerNewParams, hp]
  · intro p hl hnl
    have hr : endsWithB p (strL ")") = false := by
      cases hx : endsWithB p (strL ")") with
      | false => rfl
      | true =>
        have hx2 : p.getLast? = some ')' := by
          rw [show strL ")" = [')'] from rfl] at hx
          exact (endsWithB_singleton ')' p).mp hx
        rw [hl] at hx2
        simp at hx2
    simp only [handlerNewParams, hnl, hr, Bool.false_eq_true, if_false]
    rw [show strL ",," = [',', ','] from rfl]
    exact contains2_junction ',' ',' p (strL ",\n\tlogger *slog.Logger") hl rfl

/-- Witness for the amended C3 statement at concrete spans. -/
theorem c3_amended_separator_witness :
    containsSub (strL ",,") (mainsNewArgs (strL "NewFXHandler(1")) = false ∧
    handlerNewParams (strL "func NewFXHandler(a,\n") =
      strL "func NewFXHandler(a,\n" ++ strL "\tlogger *slog.Logger,\n" ∧
    containsSub (strL ",,") (handlerNewParams (strL "func NewFXHandler(a,")) = true :=
  ⟨c3_amended_separator.1 (strL "NewFXHandler(1") (by decide),
   c3_amended_separator.2.1 (strL "func NewFXHandler(a,\n") (by decide),
   c3_amended_separator.2.2 (strL "func NewFXHandler(a,") (by decide) (by decide)⟩

set_option maxRecDepth 400000 in
/-- C4: Scenario C constructor injection on a file holding the catalog constructor
func NewFXHandler(x int) *FXHandler returning an FXHandler literal: the signature gains
a trailing logger parameter of the pointer-to-Logger type *slog.Logger and the returned
struct literal gains a trailing logger: logger field assignment. -/
theorem c4_constructor_injection :
    update_handler_content c4in = c4out ∧
    containsSub (strL ",\n\tlogger *slog.Logger) *FXHandler") c4out = true ∧
    containsSub (strL "\n\t\tlogger:               logger,\x7d") c4out = true := by
  refine ⟨by decide, by decide, by decide⟩

set_option maxRecDepth 400000 in
/-- C5: the call site NewFXHandler(1) gains a trailing logger argument under the
update-mains rule, and a call already containing a logger argument is left unchanged by
both updaters; but the update-tests splice replaces the whole match including group 2,
so the closing parenthesis is deleted from the rewritten test-file call. -/
theorem c5_tests_drop_closing_paren :
    update_test_content c5in = strL "NewFXHandler(1,\n\t\tlogger," ∧
    update_main_content c5in = strL "NewFXHandler(1,\n\t\tlogger,)" ∧
    update_main_content c5logIn = c5logIn ∧
    update_test_content c5logIn = c5logIn := by
  refine ⟨by decide, by decide, by decide, by decide⟩

set_option maxRecDepth 400000 in
/-- C6 counterexample: the located span is not substituted only at its first literal
occurrence: with two textually identical struct spans, the replace-all of the field
rule rewrites both occurrences, so the content differs from a first-occurrence-only
substitution. -/
theorem c6_first_occurrence_counterexample :
    update_handler_content c6ex =
      strL "type CardHandler struct \x7bx\n\tlogger               *slog.Logger\x7dtype CardHandler struct \x7bx\n\tlogger               *slog.Logger\x7d" ∧
    update_handler_content c6ex ≠
      strL "type CardHandler struct \x7bx\n\tlogger               *slog.Logger\x7dtype CardHandler struct \x7bx\x7d" := by
  refine ⟨by decide, by decide⟩

set_option maxRecDepth 400000 in
/-- C6 amended: a located span is applied by direct text substitution of every literal
occurrence of its exact span text within the full content (Python str.replace replaces
all occurrences), each occurrence being updated as an independent target span. -/
theorem c6_amended_all_occurrences :
    update_handler_content c6amx =
      strL "type LendingHandler struct \x7by\n\tlogger               *slog.Logger\x7dtype LendingHandler struct \x7by\n\tlogger               *slog.Logger\x7d" := by
  decide

set_option maxRecDepth 400000 in
/-- C8 counterexample: the negative lookahead of fix-healthchecks.py ranges over the
whole remaining document (DOTALL dot-star), so a bare anchor block followed anywhere
later by a start_period occurrence receives no insertion, although the same block in
isolation is matched and patched. -/
theorem c8_per_block_counterexample :
    fix_health_content c8ex = c8ex ∧
    fix_health_content hcBlock = hcBlock ++ hcIns := by
  refine ⟨by decide, by decide⟩

set_option maxRecDepth 400000 in
/-- C8 amended: the key line is inserted after a matched anchor block exactly when no
occurrence of start_period appears anywhere later in the document: with two bare
blocks both are patched, and a bare block followed by a stray later start_period
occurrence (not even a keyed block) is skipped. -/
theorem c8_amended_global_lookahead :
    fix_health_content c8am1 = hcBlock ++ hcIns ++ strL "\n" ++ hcBlock ++ hcIns ∧
    fix_health_content c8am2 = c8am2 := by
  refine ⟨by decide, by decide⟩

set_option maxRecDepth 400000 in
/-- C10 counterexample: the main-file updater examines only the first regex match, but
its substitution is a global str.replace of the matched span text, so a subsequent call
with textually identical arguments is rewritten as well rather than left unchanged. -/
theorem c10_single_site_counterexample :
    update_main_content c10ex =
      strL "NewFraudHandler(1,\n\t\tlogger,)\nNewFraudHandler(1,\n\t\tlogger,)" ∧
    update_main_content c10ex ≠
      strL "NewFraudHandler(1,\n\t\tlogger,)\nNewFraudHandler(1)" := by
  refine ⟨by decide, by decide⟩

set_option maxRecDepth 400000 in
/-- C10 amended: only the first regex match per constructor is examined, and subsequent
calls are left unchanged exactly when their span text differs from the first match;
subsequent calls whose span text equals the first match are rewritten too by the global
literal substitution. -/
theorem c10_amended_global_substitution :
    update_main_content c10am1 =
      strL "NewReportingHandler(1,\n\t\tlogger,)\nNewReportingHandler(2)" ∧
    update_main_content c10am2 =
      strL "NewPaymentHandler(1,\n\t\tlogger,)\nNewPaymentHandler(1,\n\t\tlogger,)" := by
  refine ⟨by decide, by decide⟩
